import Mathlib

/-!
Shallow embedding of `scholar_cite_checker.py`: a polling service that reads a
persisted citation count from a text file, queries an external scholarly
source, emails on an increase, and persists the new count.  Strings are
modelled as `List Char`; the counter file as `Option (List Char)` (`none` =
file absent); external effects (the scholarly query, the SMTP session, file
write success) as oracle parameters.
-/

/-- Whitespace test used to model Python `str.strip()` (which removes
leading/trailing whitespace; modelled here with the ASCII whitespace
characters). -/
def pyWS (c : Char) : Bool := c.isWhitespace

/-- Model of Python `str.strip()`: drop leading and trailing whitespace. -/
def pyStrip (l : List Char) : List Char :=
  ((l.dropWhile pyWS).reverse.dropWhile pyWS).reverse

/-- Value of a decimal digit character, `none` if not a digit
(models one character step of CPython `int()` digit scanning). -/
def digit? (c : Char) : Option Nat :=
  if c.isDigit then some (c.toNat - 48) else none

/-- Continue scanning a decimal literal after the first digit: a sequence of
digits in which a single underscore may appear between two digits (Python
`int()` accepts `1_000` but rejects `_1`, `1_`, `1__0`). -/
def parseRest : Nat → List Char → Option Nat
  | acc, [] => some acc
  | acc, c :: cs =>
    if c = '_' then
      match cs with
      | [] => none
      | d :: ds =>
        match digit? d with
        | some v => parseRest (acc * 10 + v) ds
        | none => none
    else
      match digit? c with
      | some v => parseRest (acc * 10 + v) cs
      | none => none

/-- Scan an unsigned decimal literal: at least one digit, then `parseRest`. -/
def parseUDec : List Char → Option Nat
  | [] => none
  | c :: cs =>
    match digit? c with
    | some v => parseRest v cs
    | none => none

/-- Model of Python `int(s)` on an already-stripped string: an optional single
sign followed by an unsigned decimal literal; `none` models `ValueError`. -/
def pyIntCore (l : List Char) : Option Int :=
  match l with
  | [] => none
  | c :: cs =>
    if c = '+' then (parseUDec cs).map (fun n => (n : Int))
    else if c = '-' then (parseUDec cs).map (fun n => -(n : Int))
    else (parseUDec (c :: cs)).map (fun n => (n : Int))

/-- Model of Python `int(s)` on an arbitrary string (`int()` ignores
surrounding whitespace); `none` models `ValueError`. -/
def pyInt (l : List Char) : Option Int := pyIntCore (pyStrip l)

/-- Decimal digit character for `d` (used with `d < 10`). -/
def digitChar (d : Nat) : Char := Char.ofNat (48 + d)

/-- Fuel-driven decimal printer for naturals: digits of `n`, most significant
first, empty for `0`.  Fuel `n` is always sufficient. -/
def natDigitsAux : Nat → Nat → List Char
  | 0, _ => []
  | fuel + 1, n =>
    if n = 0 then [] else natDigitsAux fuel (n / 10) ++ [digitChar (n % 10)]

/-- Decimal digits of `n`, most significant first (empty for `0`). -/
def natDigits (n : Nat) : List Char := natDigitsAux n n

/-- Model of Python `str(n)` for a natural number. -/
def natStr (n : Nat) : List Char := if n = 0 then ['0'] else natDigits n

/-- Model of Python `str(v)` for an integer: optional minus sign followed by
the decimal digits of the absolute value. -/
def pyIntStr (v : Int) : List Char :=
  if v < 0 then '-' :: natStr v.natAbs else natStr v.toNat

/-- Decimal value accumulated left-to-right over a list of digit characters. -/
def valFold (acc : Nat) (l : List Char) : Nat :=
  l.foldl (fun a c => a * 10 + (c.toNat - 48)) acc

-- ---------------------------------------------------------------------------
-- Persistent counter store (`read_last_count` / `write_last_count`).
-- ---------------------------------------------------------------------------

/-- State of the counter file `last_citation_count.txt`: `none` models a
missing file (`FileNotFoundError` on open), `some l` a file holding the
characters `l`. -/
abbrev FileS := Option (List Char)

/-- Embedding of `read_last_count`: reads the file, strips the content, and
parses it as an integer.  The source returns 0 from every exception handler
(file absent, empty content, `ValueError` from `int`, any other error), so the
embedding is a total function. -/
def read_last_count (fs : FileS) : Int :=
  match fs with
  | none => 0
  | some content =>
    let c := pyStrip content
    if c.isEmpty then 0
    else
      match pyInt c with
      | some v => v
      | none => 0

/-- Embedding of `write_last_count`: overwrites the file with `str(count)`.
`ioOk` injects the outcome of the file I/O (`false` models an exception caught
by the handler, which logs and leaves the file as it was).  The second
component is the Python return value: the source has no `return` statement on
either path, so both outcomes return `None`, modelled as `none`. -/
def write_last_count (fs : FileS) (count : Int) (ioOk : Bool) :
    FileS × Option Bool :=
  if ioOk then (some (pyIntStr count), none) else (fs, none)

-- ---------------------------------------------------------------------------
-- Citation lookup (`get_citation_count`).
-- ---------------------------------------------------------------------------

/-- Python truthiness of an optional string argument (`None` and the empty
string are falsy). -/
def truthyS : Option (List Char) → Bool
  | none => false
  | some s => !s.isEmpty

/-- Python truthiness of an optional integer argument (`None` and `0` are
falsy). -/
def truthyI : Option Int → Bool
  | none => false
  | some n => decide (n ≠ 0)

/-- A Python value returned as the first component of `get_citation_count`:
`None`, a string, or the generator object bound to `search_query` by
`search_author` (returned as-is when `fill` or `next` raises a
non-`StopIteration` error before `search_query` is overwritten). -/
inductive PyV where
  | none
  | str (s : List Char)
  | gen
deriving DecidableEq

/-- A Python optional string as a `PyV`. -/
def pyVOfOpt : Option (List Char) → PyV
  | none => PyV.none
  | some s => PyV.str s

/-- Oracle for the external scholarly query inside `get_citation_count`:
* `found name citedby` — the `try` body completed with a truthy
  `author_info` dict whose optional fields are `name` and `citedby`;
* `noInfo` — the `try` body completed but `author_info` is falsy;
* `stopIter` — `next(search_query)` raised `StopIteration` (no matching
  author; only arises on the name branch);
* `errEarly` — some other exception was raised while `search_query` was
  still `None` (e.g. inside `search_author` or the ID-branch calls);
* `errLate` — some other exception was raised after `search_author` bound a
  generator to `search_query` (name branch: `next` or `fill` failed). -/
inductive ScholarOutcome where
  | found (name : Option (List Char)) (citedby : Option Int)
  | noInfo
  | stopIter
  | errEarly
  | errLate
deriving DecidableEq

/-- Embedding of `get_citation_count(author_name, author_id)`: returns the
pair Python returns, with the network behaviour supplied by the
`ScholarOutcome` oracle.  The guard mirrors
`if not author_name and not author_id: return None, None`. -/
def get_citation_count (author_name author_id : Option (List Char))
    (outcome : ScholarOutcome) : PyV × Option Int :=
  if !truthyS author_name && !truthyS author_id then (PyV.none, none)
  else
    match outcome with
    | .found nm cb => (PyV.str (Option.getD nm ("N/A".data)), cb)
    | .noInfo => (PyV.str ("Unknown Author".data), none)
    | .stopIter => (pyVOfOpt author_name, none)
    | .errEarly => (PyV.none, none)
    | .errLate => (PyV.gen, none)

-- ---------------------------------------------------------------------------
-- Notifier (`send_email`).
-- ---------------------------------------------------------------------------

/-- Embedding of `send_email(subject, body, sender, password, receiver,
server, port)`.  The result is the pair (connection attempted?, Python return
value).  The guard mirrors `if not all([sender, password, receiver, server,
port]): return False` — reached without opening a connection.  `smtpOk`
injects the outcome of the SMTP session (`starttls`/`login`/`send_message`):
`true` models the success path returning `True`, `false` models an exception
caught by a handler returning `False`.  The subject and body never influence
the outcome in the source, only the message content. -/
def send_email (subject body : List Char)
    (sender password receiver server : Option (List Char)) (port : Option Int)
    (smtpOk : Bool) : Bool × Bool :=
  if !(truthyS sender && truthyS password && truthyS receiver &&
        truthyS server && truthyI port) then
    (false, false)
  else
    (true, smtpOk)

-- ---------------------------------------------------------------------------
-- Configuration and the check-cycle orchestrator (`__main__` loop body).
-- ---------------------------------------------------------------------------

/-- Environment-sourced configuration, as bound by the module-level
`os.getenv` calls: `AUTHOR_NAME` defaults to a string (so it is a string,
possibly empty), `AUTHOR_ID` and the three mail identities default to `None`,
`SMTP_SERVER` defaults to a host string, `SMTP_PORT` is an integer. -/
structure Config where
  authorName : List Char
  authorId : Option (List Char)
  senderEmail : Option (List Char)
  senderPassword : Option (List Char)
  receiverEmail : Option (List Char)
  smtpServer : List Char
  smtpPort : Int
deriving DecidableEq

/-- `search_identifier != "N/A"` holds exactly when an author ID or a
non-empty author name is configured. -/
def authorConfigured (cfg : Config) : Bool :=
  truthyS cfg.authorId || !cfg.authorName.isEmpty

/-- The `send_email` call in the loop body: the subject and body are built
from the counts, author identity and timestamp; since their content never
influences any behaviour modelled here, placeholders are passed. -/
def attemptNotify (cfg : Config) (smtpOk : Bool) : Bool × Bool :=
  send_email [] [] cfg.senderEmail cfg.senderPassword cfg.receiverEmail
    (some cfg.smtpServer) (some cfg.smtpPort) smtpOk

/-- The comparison/notification/persist block of the loop body, entered when
`search_identifier != "N/A"`: given `total_citations`, compares with the
freshly read `last_count` and acts.  Returns the resulting file state and
whether `send_email` was called. -/
def decideStep (cfg : Config) (fs : FileS) (total : Option Int)
    (smtpOk writeOk : Bool) : FileS × Bool :=
  let last := read_last_count fs
  match total with
  | none => (fs, false)
  | some current =>
    if last < current then
      if (attemptNotify cfg smtpOk).2 then
        ((write_last_count fs current writeOk).1, true)
      else (fs, true)
    else if current = last then (fs, false)
    else ((write_last_count fs current writeOk).1, false)

/-- One iteration of the `while True` loop (one check cycle): read the last
count, branch on the configured author (ID preferred over name, matching
`if target_author_id: ... elif target_author_name: ...`), look up the count
and run the decision block; with no author configured the cycle is a no-op.
Returns the resulting file state and whether `send_email` was called. -/
def runCycle (cfg : Config) (fs : FileS) (outcome : ScholarOutcome)
    (smtpOk writeOk : Bool) : FileS × Bool :=
  if truthyS cfg.authorId then
    decideStep cfg fs (get_citation_count none cfg.authorId outcome).2 smtpOk writeOk
  else if !cfg.authorName.isEmpty then
    decideStep cfg fs (get_citation_count (some cfg.authorName) none outcome).2 smtpOk writeOk
  else (fs, false)

-- ---------------------------------------------------------------------------
-- Module-level configuration parse of SMTP_PORT.
-- ---------------------------------------------------------------------------

/-- Embedding of `int(os.getenv(key, default))` with an integer default: when
the variable is unset, `int` is applied to the integer default and succeeds;
when it is set, the string is parsed.  `none` models a `ValueError`
propagating out of the unguarded `int(...)` call. -/
def int_getenv (env : Option (List Char)) (default : Int) : Option Int :=
  match env with
  | none => some default
  | some s => pyInt s

/-- The module-level binding `SMTP_PORT = int(os.getenv("SMTP_PORT", 587))`,
evaluated at import time, before the main loop.  `none` models an unhandled
`ValueError` terminating the process. -/
def smtpPortLoad (env : Option (List Char)) : Option Int := int_getenv env 587

/-- The main loop is reached only if every module-level binding, in
particular the `SMTP_PORT` conversion, evaluated without raising. -/
def reachesMainLoop (smtpPortEnv : Option (List Char)) : Bool :=
  (smtpPortLoad smtpPortEnv).isSome

/-- The lookup reported failure: `get_citation_count` returns no citation
count whichever author arguments it is called with. -/
def lookupFailed (outcome : ScholarOutcome) : Prop :=
  ∀ n i, (get_citation_count n i outcome).2 = none

/-- A sample fully-populated configuration, used to instantiate the cycle
theorems at concrete inputs. -/
def cfgW : Config :=
  { authorName := ['A'], authorId := none, senderEmail := some ['s'],
    senderPassword := some ['p'], receiverEmail := some ['r'],
    smtpServer := ['h'], smtpPort := 587 }

-- Basic lemmas about the printer and the scanner, leading to the
-- print/parse round trip used by the store round-trip property.

theorem natDigitsAux_fuel : ∀ f₁ f₂ n, n ≤ f₁ → n ≤ f₂ →
    natDigitsAux f₁ n = natDigitsAux f₂ n := by
  intro f₁
  induction f₁ with
  | zero =>
    intro f₂ n h₁ _
    interval_cases n
    cases f₂ <;> simp [natDigitsAux]
  | succ g ih =>
    intro f₂ n h₁ h₂
    by_cases hn : n = 0
    · subst hn; cases f₂ <;> simp [natDigitsAux]
    · have hpos : 0 < n := Nat.pos_of_ne_zero hn
      cases f₂ with
      | zero => omega
      | succ h =>
        have hdiv : n / 10 < n := Nat.div_lt_self hpos (by norm_num)
        simp only [natDigitsAux, if_neg hn]
        rw [ih h (n / 10) (by omega) (by omega)]

theorem natDigits_eq (n : Nat) :
    natDigits n = if n = 0 then [] else natDigits (n / 10) ++ [digitChar (n % 10)] := by
  by_cases hn : n = 0
  · subst hn; simp [natDigits, natDigitsAux]
  · have hpos : 0 < n := Nat.pos_of_ne_zero hn
    obtain ⟨m, rfl⟩ : ∃ m, n = m + 1 := ⟨n - 1, by omega⟩
    rw [if_neg hn]
    show natDigitsAux (m + 1) (m + 1) = _
    simp only [natDigitsAux, if_neg hn]
    have hdiv : (m + 1) / 10 < m + 1 := Nat.div_lt_self hpos (by norm_num)
    rw [natDigitsAux_fuel m ((m + 1) / 10) ((m + 1) / 10) (by omega) (by omega)]
    rfl

theorem digitChar_isDigit {d : Nat} (h : d < 10) : (digitChar d).isDigit = true := by
  interval_cases d <;> decide

theorem digitChar_toNat {d : Nat} (h : d < 10) : (digitChar d).toNat = 48 + d := by
  interval_cases d <;> decide

theorem natDigits_all_digits : ∀ n, ∀ c ∈ natDigits n, c.isDigit = true := by
  intro n
  induction n using Nat.strong_induction_on with
  | _ n ih =>
    intro c hc
    rw [natDigits_eq] at hc
    by_cases hn : n = 0
    · simp [hn] at hc
    · rw [if_neg hn] at hc
      rcases List.mem_append.mp hc with h | h
      · exact ih (n / 10) (Nat.div_lt_self (Nat.pos_of_ne_zero hn) (by norm_num)) c h
      · rcases List.mem_singleton.mp h with rfl
        exact digitChar_isDigit (Nat.mod_lt n (by norm_num))

theorem natDigits_ne_nil {n : Nat} (h : n ≠ 0) : natDigits n ≠ [] := by
  rw [natDigits_eq, if_neg h]
  simp

theorem valFold_natDigits : ∀ n acc, valFold acc (natDigits n) =
    acc * 10 ^ (natDigits n).length + n := by
  intro n
  induction n using Nat.strong_induction_on with
  | _ n ih =>
    intro acc
    by_cases hn : n = 0
    · subst hn
      rw [natDigits_eq]
      simp [valFold]
    · rw [natDigits_eq, if_neg hn]
      have hdiv : n / 10 < n := Nat.div_lt_self (Nat.pos_of_ne_zero hn) (by norm_num)
      have hmod : n % 10 < 10 := Nat.mod_lt n (by norm_num)
      simp only [valFold, List.foldl_append, List.foldl_cons, List.foldl_nil,
        List.length_append, List.length_singleton]
      have hrec := ih (n / 10) hdiv acc
      simp only [valFold] at hrec
      rw [hrec, digitChar_toNat hmod]
      have hdm : 10 * (n / 10) + n % 10 = n := Nat.div_add_mod n 10
      ring_nf
      omega

theorem parseRest_digits : ∀ (l : List Char) (acc : Nat),
    (∀ c ∈ l, c.isDigit = true) → parseRest acc l = some (valFold acc l) := by
  intro l
  induction l with
  | nil => intro acc _; simp [parseRest, valFold]
  | cons c cs ih =>
    intro acc h
    have hc : c.isDigit = true := h c (List.mem_cons_self c cs)
    have hne : c ≠ '_' := by
      intro he; rw [he] at hc; simp at hc
    rw [parseRest.eq_def]
    simp only [if_neg hne, digit?, hc, if_true]
    rw [ih (acc * 10 + (c.toNat - 48)) (fun d hd => h d (List.mem_cons_of_mem c hd))]
    simp [valFold]

theorem parseUDec_valFold (l : List Char) (hne : l ≠ [])
    (h : ∀ c ∈ l, c.isDigit = true) : parseUDec l = some (valFold 0 l) := by
  cases l with
  | nil => exact absurd rfl hne
  | cons c cs =>
    have hc : c.isDigit = true := h c (List.mem_cons_self c cs)
    simp only [parseUDec, digit?, hc, if_pos]
    rw [parseRest_digits cs (c.toNat - 48) (fun d hd => h d (List.mem_cons_of_mem c hd))]
    simp [valFold]

theorem parseUDec_natStr (n : Nat) : parseUDec (natStr n) = some n := by
  by_cases hn : n = 0
  · subst hn; decide
  · rw [natStr, if_neg hn]
    rw [parseUDec_valFold (natDigits n) (natDigits_ne_nil hn) (natDigits_all_digits n)]
    rw [valFold_natDigits n 0]
    simp

theorem natStr_all_digits (n : Nat) : ∀ c ∈ natStr n, c.isDigit = true := by
  by_cases hn : n = 0
  · subst hn; intro c hc; simp [natStr] at hc; subst hc; decide
  · rw [natStr, if_neg hn]; exact natDigits_all_digits n

theorem natStr_ne_nil (n : Nat) : natStr n ≠ [] := by
  by_cases hn : n = 0
  · subst hn; simp [natStr]
  · rw [natStr, if_neg hn]; exact natDigits_ne_nil hn

theorem isDigit_ne_plus {c : Char} (h : c.isDigit = true) : c ≠ '+' := by
  intro he; rw [he] at h; simp at h

theorem isDigit_ne_minus {c : Char} (h : c.isDigit = true) : c ≠ '-' := by
  intro he; rw [he] at h; simp at h

theorem pyIntCore_natStr (n : Nat) : pyIntCore (natStr n) = some (n : Int) := by
  have hne := natStr_ne_nil n
  have hdig := natStr_all_digits n
  rcases hl : natStr n with _ | ⟨c, cs⟩
  · exact absurd hl hne
  · have hc : c.isDigit = true := by
      apply hdig; rw [hl]; exact List.mem_cons_self c cs
    simp only [pyIntCore, if_neg (isDigit_ne_plus hc), if_neg (isDigit_ne_minus hc)]
    rw [← hl, parseUDec_natStr n]
    rfl

theorem pyIntCore_pyIntStr (v : Int) : pyIntCore (pyIntStr v) = some v := by
  by_cases hv : v < 0
  · rw [pyIntStr, if_pos hv]
    have h1 : ('-' : Char) ≠ '+' := by decide
    simp only [pyIntCore, if_neg h1, if_pos rfl]
    rw [parseUDec_natStr]
    show some (-(v.natAbs : Int)) = some v
    congr 1
    omega
  · rw [pyIntStr, if_neg hv]
    rw [pyIntCore_natStr]
    congr 1
    omega

theorem isDigit_not_ws {c : Char} (h : c.isDigit = true) : pyWS c = false := by
  rw [Char.isDigit] at h
  simp only [Bool.and_eq_true, decide_eq_true_eq] at h
  rw [pyWS, Char.isWhitespace]
  simp only [Bool.or_eq_false_iff, decide_eq_false_iff_not]
  refine ⟨⟨⟨?_, ?_⟩, ?_⟩, ?_⟩ <;> intro he <;> rw [he] at h <;> revert h <;> decide

theorem pyIntStr_not_ws (v : Int) : ∀ c ∈ pyIntStr v, pyWS c = false := by
  intro c hc
  rw [pyIntStr] at hc
  by_cases hv : v < 0
  · rw [if_pos hv] at hc
    rcases List.mem_cons.mp hc with rfl | h
    · decide
    · exact isDigit_not_ws (natStr_all_digits _ c h)
  · rw [if_neg hv] at hc
    exact isDigit_not_ws (natStr_all_digits _ c hc)

theorem dropWhile_of_all_false {p : Char → Bool} :
    ∀ l : List Char, (∀ c ∈ l, p c = false) → List.dropWhile p l = l := by
  intro l h
  cases l with
  | nil => rfl
  | cons c cs =>
    rw [List.dropWhile_cons, h c (List.mem_cons_self c cs)]
    simp

theorem pyStrip_of_no_ws {l : List Char} (h : ∀ c ∈ l, pyWS c = false) :
    pyStrip l = l := by
  rw [pyStrip, dropWhile_of_all_false l h]
  rw [dropWhile_of_all_false l.reverse (fun c hc => h c (List.mem_reverse.mp hc))]
  exact List.reverse_reverse l

theorem pyIntStr_ne_nil (v : Int) : pyIntStr v ≠ [] := by
  rw [pyIntStr]
  by_cases hv : v < 0
  · rw [if_pos hv]; simp
  · rw [if_neg hv]; exact natStr_ne_nil _

theorem pyInt_pyIntStr (v : Int) : pyInt (pyIntStr v) = some v := by
  rw [pyInt, pyStrip_of_no_ws (pyIntStr_not_ws v), pyIntCore_pyIntStr]

theorem read_of_pyIntStr (v : Int) : read_last_count (some (pyIntStr v)) = v := by
  rw [read_last_count]
  simp only [pyStrip_of_no_ws (pyIntStr_not_ws v)]
  rw [if_neg (by simpa [List.isEmpty_iff] using pyIntStr_ne_nil v)]
  rw [pyInt_pyIntStr]

-- Helper lemmas about the lookup and the cycle.

theorem gcc_found_snd (n i nm : Option (List Char)) (cb : Option Int)
    (h : truthyS n = true ∨ truthyS i = true) :
    (get_citation_count n i (.found nm cb)).2 = cb := by
  have hg : (!truthyS n && !truthyS i) = false := by
    rcases h with h | h <;> simp [h]
  simp [get_citation_count, hg]

theorem truthyS_false_of_not {o : Option (List Char)} (h : ¬truthyS o = true) :
    truthyS o = false := by
  revert h; cases truthyS o <;> simp

theorem runCycle_found (cfg : Config) (fs : FileS) (nm : Option (List Char))
    (cb : Option Int) (smtpOk writeOk : Bool)
    (hc : authorConfigured cfg = true) :
    runCycle cfg fs (.found nm cb) smtpOk writeOk
      = decideStep cfg fs cb smtpOk writeOk := by
  rw [runCycle]
  by_cases hid : truthyS cfg.authorId = true
  · rw [if_pos hid, gcc_found_snd none cfg.authorId nm cb (Or.inr hid)]
  · have hname : (!cfg.authorName.isEmpty) = true := by
      rw [authorConfigured, truthyS_false_of_not hid] at hc
      simpa using hc
    rw [if_neg hid, if_pos hname]
    rw [gcc_found_snd (some cfg.authorName) none nm cb (Or.inl (by simpa [truthyS] using hname))]

theorem decideStep_increase (cfg : Config) (fs : FileS) (current : Int)
    (smtpOk writeOk : Bool) (h : read_last_count fs < current) :
    decideStep cfg fs (some current) smtpOk writeOk =
      (if (attemptNotify cfg smtpOk).2 then (write_last_count fs current writeOk).1
       else fs, true) := by
  cases hs : (attemptNotify cfg smtpOk).2 <;> simp [decideStep, h, hs]

theorem decideStep_decrease (cfg : Config) (fs : FileS) (current : Int)
    (smtpOk writeOk : Bool) (h : current < read_last_count fs) :
    decideStep cfg fs (some current) smtpOk writeOk
      = ((write_last_count fs current writeOk).1, false) := by
  have h1 : ¬(read_last_count fs < current) := by omega
  have h2 : ¬(current = read_last_count fs) := by omega
  simp [decideStep, h1, h2]

-- Claim theorems.

/-- C1: on a cycle where the freshly looked-up count exceeds the persisted
count, the persisted count becomes the new count if and only if the
notification send succeeded; when the send fails, the file is left unchanged
(so the same comparison recurs next cycle — at-least-once delivery with the
persisted count as acknowledgment marker).  Stated with no injected store
write failure. -/
theorem cycle_increase_persist_iff_notified (cfg : Config) (fs : FileS)
    (nm : Option (List Char)) (current : Int) (smtpOk : Bool)
    (hc : authorConfigured cfg = true)
    (hgt : read_last_count fs < current) :
    ((attemptNotify cfg smtpOk).2 = true →
        runCycle cfg fs (.found nm (some current)) smtpOk true
          = (some (pyIntStr current), true)) ∧
    ((attemptNotify cfg smtpOk).2 = false →
        runCycle cfg fs (.found nm (some current)) smtpOk true = (fs, true)) ∧
    (read_last_count (runCycle cfg fs (.found nm (some current)) smtpOk true).1
        = current ↔ (attemptNotify cfg smtpOk).2 = true) := by
  rw [runCycle_found cfg fs nm (some current) smtpOk true hc,
    decideStep_increase cfg fs current smtpOk true hgt]
  cases hs : (attemptNotify cfg smtpOk).2
  · refine ⟨fun h => absurd h (by simp), fun _ => by simp, ?_⟩
    simp only [Bool.false_eq_true, if_false]
    exact iff_of_false (by omega) (by simp)
  · have hw : (write_last_count fs current true).1 = some (pyIntStr current) := rfl
    refine ⟨fun _ => ?_, fun h => absurd h (by simp), ?_⟩
    · simp [hw]
    · simp [hw, read_of_pyIntStr]

/-- C1 witness: with a fully-populated configuration, an absent counter file
(persisted count 0), a looked-up count of 5 and a successful SMTP session,
the theorem applies and the persisted count tracks the send outcome. -/
theorem cycle_increase_persist_iff_notified_w :
    ((attemptNotify cfgW true).2 = true →
        runCycle cfgW none (.found none (some 5)) true true
          = (some (pyIntStr 5), true)) ∧
    ((attemptNotify cfgW true).2 = false →
        runCycle cfgW none (.found none (some 5)) true true = (none, true)) ∧
    (read_last_count (runCycle cfgW none (.found none (some 5)) true true).1
        = 5 ↔ (attemptNotify cfgW true).2 = true) :=
  cycle_increase_persist_iff_notified cfgW none none 5 true (by decide) (by decide)

/-- C2: whenever the counter file is absent, empty after stripping, or its
stripped content does not parse as an integer, `read_last_count` returns 0
(each failure is caught inside the function, which is therefore total). -/
theorem read_last_count_bad_input_zero (fs : FileS)
    (h : fs = none ∨
         ∃ c, fs = some c ∧ (pyStrip c = [] ∨ pyInt (pyStrip c) = none)) :
    read_last_count fs = 0 := by
  rcases h with rfl | ⟨c, rfl, hc | hc⟩
  · rfl
  · simp [read_last_count, hc]
  · by_cases he : (pyStrip c).isEmpty = true <;> simp [read_last_count, he, hc]

/-- C2 witness: a file holding a single non-digit character reads as 0. -/
theorem read_last_count_bad_input_zero_w : read_last_count (some ['x']) = 0 :=
  read_last_count_bad_input_zero (some ['x'])
    (Or.inr ⟨['x'], rfl, Or.inr (by decide)⟩)

/-- C3: writing any integer with `write_last_count` (with no injected I/O
failure) and then reading with `read_last_count` returns that integer. -/
theorem write_then_read_roundtrip (fs : FileS) (v : Int) :
    read_last_count (write_last_count fs v true).1 = v :=
  read_of_pyIntStr v

/-- C4 counterexample: `write_last_count` returns Python `None` on the
success path and on the failure path alike — at the concrete input
(absent file, count 5) the two return values are equal, so the caller cannot
distinguish the outcomes; in particular success does not report success. -/
theorem write_last_count_no_flag_cex :
    (write_last_count none 5 true).2 = (write_last_count none 5 false).2 ∧
    (write_last_count none 5 true).2 = none :=
  ⟨rfl, rfl⟩

/-- C4 amended: `write_last_count` logs and never raises, but returns `None`
(no success flag) in both outcomes, so its caller cannot distinguish success
from I/O failure via the return value. -/
theorem write_last_count_returns_none (fs : FileS) (v : Int) (ioOk : Bool) :
    (write_last_count fs v ioOk).2 = none := by
  cases ioOk <;> rfl

/-- C5: on a cycle where the lookup succeeds with a count strictly below the
persisted count, the orchestrator persists the new count immediately and
never calls `send_email` (with no injected store write failure). -/
theorem cycle_decrease_silent_persist (cfg : Config) (fs : FileS)
    (nm : Option (List Char)) (current : Int) (smtpOk : Bool)
    (hc : authorConfigured cfg = true)
    (hlt : current < read_last_count fs) :
    runCycle cfg fs (.found nm (some current)) smtpOk true
      = (some (pyIntStr current), false) ∧
    read_last_count (some (pyIntStr current)) = current := by
  refine ⟨?_, read_of_pyIntStr current⟩
  rw [runCycle_found cfg fs nm (some current) smtpOk true hc,
    decideStep_decrease cfg fs current smtpOk true hlt]
  rfl

/-- C5 witness: persisted count 9, looked-up count 3: the file is rewritten
to 3 and no send is attempted. -/
theorem cycle_decrease_silent_persist_w :
    runCycle cfgW (some ['9']) (.found none (some 3)) true true
      = (some (pyIntStr 3), false) ∧
    read_last_count (some (pyIntStr 3)) = 3 :=
  cycle_decrease_silent_persist cfgW (some ['9']) none 3 true (by decide) (by decide)

/-- C6: on a cycle where the lookup reports failure (no citation count), the
counter file is unchanged and `send_email` is never called, whatever the
configuration and injected outcomes. -/
theorem cycle_lookup_failure_noop (cfg : Config) (fs : FileS)
    (outcome : ScholarOutcome) (smtpOk writeOk : Bool)
    (h : lookupFailed outcome) :
    runCycle cfg fs outcome smtpOk writeOk = (fs, false) := by
  rw [runCycle]
  by_cases hid : truthyS cfg.authorId = true
  · rw [if_pos hid, h none cfg.authorId]
    rfl
  · by_cases hname : (!cfg.authorName.isEmpty) = true
    · rw [if_neg hid, if_pos hname, h (some cfg.authorName) none]
      rfl
    · rw [if_neg hid, if_neg hname]

/-- C6 witness: an author-not-found outcome leaves a file holding 7 untouched
and attempts no send. -/
theorem cycle_lookup_failure_noop_w :
    runCycle cfgW (some ['7']) .stopIter true true = (some ['7'], false) :=
  cycle_lookup_failure_noop cfgW (some ['7']) .stopIter true true
    (by intro n i; simp only [get_citation_count]; split <;> rfl)

/-- C7: if any of sender, password, receiver, server or port passed to
`send_email` is missing (`None`), the call returns `False` without attempting
a connection (first component `false` = no connection opened). -/
theorem send_email_missing_param_fails (subject body : List Char)
    (sender password receiver server : Option (List Char)) (port : Option Int)
    (smtpOk : Bool)
    (h : sender = none ∨ password = none ∨ receiver = none ∨ server = none ∨
         port = none) :
    send_email subject body sender password receiver server port smtpOk
      = (false, false) := by
  rcases h with rfl | rfl | rfl | rfl | rfl <;>
    simp [send_email, truthyS, truthyI]

/-- C7 witness: with the sender missing, no connection is attempted and the
call reports failure. -/
theorem send_email_missing_param_fails_w :
    send_email [] [] none (some ['p']) (some ['r']) (some ['h']) (some 587) true
      = (false, false) :=
  send_email_missing_param_fails [] [] none (some ['p']) (some ['r'])
    (some ['h']) (some 587) true (Or.inl rfl)

/-- C8: when an author argument is supplied, `get_citation_count` signals
"no matching author" (`StopIteration`) by returning the original queried name
with no count, and any other error by returning a generic value carrying no
author identity — `None` when no generator had been bound to `search_query`,
the bare generator object otherwise — with no count. -/
theorem lookup_failure_identity (author_name author_id : Option (List Char))
    (h : truthyS author_name = true ∨ truthyS author_id = true) :
    get_citation_count author_name author_id .stopIter
      = (pyVOfOpt author_name, none) ∧
    get_citation_count author_name author_id .errEarly = (PyV.none, none) ∧
    get_citation_count author_name author_id .errLate = (PyV.gen, none) := by
  have hg : (!truthyS author_name && !truthyS author_id) = false := by
    rcases h with h | h <;> simp [h]
  refine ⟨?_, ?_, ?_⟩ <;> simp [get_citation_count, hg]

/-- C8 witness: querying by the name "x". -/
theorem lookup_failure_identity_w :
    get_citation_count (some ['x']) none .stopIter
      = (pyVOfOpt (some ['x']), none) ∧
    get_citation_count (some ['x']) none .errEarly = (PyV.none, none) ∧
    get_citation_count (some ['x']) none .errLate = (PyV.gen, none) :=
  lookup_failure_identity (some ['x']) none (Or.inl (by decide))

/-- C9 counterexample: a counter file holding the text `-5` makes
`read_last_count` return the negative integer −5, refuting the claim that its
result is non-negative for every file content. -/
theorem read_last_count_negative_cex :
    read_last_count (some ['-', '5']) < 0 := by decide

/-- C9 amended: `read_last_count` returns a non-negative integer for every
file state whose content does not parse as a negative integer (in particular
the absent/empty/unparsable defaults are 0); a stored negative integer is
returned as-is. -/
theorem read_last_count_nonneg_amended (fs : FileS)
    (h : ∀ c v, fs = some c → pyInt (pyStrip c) = some v → 0 ≤ v) :
    0 ≤ read_last_count fs := by
  cases fs with
  | none => exact le_refl 0
  | some content =>
    by_cases he : (pyStrip content).isEmpty = true
    · simp [read_last_count, he]
    · cases hp : pyInt (pyStrip content) with
      | none => simp [read_last_count, he, hp]
      | some v =>
        have := h content v rfl hp
        simp [read_last_count, he, hp, this]

/-- C9 amended witness: an absent file reads as 0, which is non-negative. -/
theorem read_last_count_nonneg_amended_w : (0 : Int) ≤ read_last_count none :=
  read_last_count_nonneg_amended none (fun c v hc _ => nomatch hc)

/-- C10: with the environment variable SMTP_PORT set to the string "abc",
the unguarded `int(...)` in the module-level configuration raises, so the
process dies before the main loop runs a single cycle. -/
theorem smtp_port_unguarded_int_crash :
    smtpPortLoad (some ['a', 'b', 'c']) = none ∧
    reachesMainLoop (some ['a', 'b', 'c']) = false := by
  exact ⟨by decide, by decide⟩
